import Mathlib

/-!
Shallow embedding of `examples/babylon-langgraph-agent/agent_http.py`:
an HTTP JSON-RPC ("A2A") client, a bounded action-memory log, the
LangGraph tool adapters, and the main autonomous tick loop.

Python values exchanged with the server are modelled by the `Json` type;
Python exceptions by `PyError`; the HTTP layer by passing the response
(status and already-parsed JSON body) as an explicit argument; global
mutable state (the client's message counter, the action-memory list) by
explicit state passing.  Machine floats never influence any control flow
in the program, so numeric JSON leaves are carried as `Int` (they are
only ever passed through opaquely by the claims considered here).
-/

namespace Babylon

/-- JSON values as returned by `response.json()` / passed to `json.dumps`.
Python dicts are modelled as key-unique association lists in insertion
order. -/
inductive Json where
  | null : Json
  | bool : Bool → Json
  | num : Int → Json
  | str : String → Json
  | arr : List Json → Json
  | obj : List (String × Json) → Json

/-- Python exceptions that the embedded code can raise.
`exc msg` is a plain `Exception(msg)` (the client raises
`Exception(f"A2A Error: {...}")`); `httpStatusError` models the
`httpx.HTTPStatusError` raised by `response.raise_for_status()`;
`keyError` / `typeError` / `attributeError` model the corresponding
built-in exceptions raised by subscripting and attribute access. -/
inductive PyError where
  | exc : String → PyError
  | httpStatusError : Nat → PyError
  | keyError : String → PyError
  | typeError : String → PyError
  | attributeError : String → PyError

/-- Python string slicing `s[:n]`: the first `n` characters
(all of `s` when it is shorter). -/
def pySlice (s : String) (n : Nat) : String := ⟨s.data.take n⟩

/-- Python `str.upper()` (character-wise uppercasing; the agent only ever
uppercases ASCII outcome names such as "yes"/"no"). -/
def pyUpper (s : String) : String := ⟨s.data.map Char.toUpper⟩

/-- Quoting used by Python `repr` on strings: single quotes by default,
double quotes when the string contains a single quote but no double
quote.  (Python additionally backslash-escapes special characters inside
the quotes; no claim below evaluates `repr` on such a string.) -/
def pyQuote (s : String) : String :=
  if s.data.contains (Char.ofNat 39) && !s.data.contains (Char.ofNat 34) then
    "\x22" ++ s ++ "\x22"
  else
    "\x27" ++ s ++ "\x27"

mutual

/-- Python `repr` of a JSON value (which is what `str` delegates to for
containers): `None`/`True`/`False`, decimal numerals, quoted strings,
`[x, y]` lists and `\x7bk: v\x7d` dicts with ", " separators. -/
def Json.pyRepr : Json → String
  | .null => "None"
  | .bool b => if b then "True" else "False"
  | .num n => toString n
  | .str s => pyQuote s
  | .arr xs => "[" ++ Json.reprList xs ++ "]"
  | .obj fs => "\x7b" ++ Json.reprFields fs ++ "\x7d"

/-- Comma-separated `repr`s of the elements of a Python list. -/
def Json.reprList : List Json → String
  | [] => ""
  | [x] => x.pyRepr
  | x :: xs => x.pyRepr ++ ", " ++ Json.reprList xs

/-- Comma-separated `key: value` renderings of the items of a Python
dict, as produced by `repr`. -/
def Json.reprFields : List (String × Json) → String
  | [] => ""
  | [(k, v)] => pyQuote k ++ ": " ++ v.pyRepr
  | (k, v) :: fs => pyQuote k ++ ": " ++ v.pyRepr ++ ", " ++ Json.reprFields fs

end

/-- Python `str` of a JSON value: the identity on strings, `repr`
otherwise.  This is the conversion used by f-string interpolation and by
the explicit `str(...)` calls in the agent. -/
def Json.pyStr : Json → String
  | .str s => s
  | j => j.pyRepr

/-- Python `str(e)` for the modelled exceptions: an `Exception`'s message
text; `str(KeyError(k))` is the `repr` of the key; the texts of the
library-raised exceptions (`httpx.HTTPStatusError`, `TypeError`,
`AttributeError`) are modelled from their messages, whose exact wording
the repository does not pin down. -/
def PyError.str : PyError → String
  | .exc msg => msg
  | .httpStatusError status => "HTTP status error " ++ toString status
  | .keyError key => pyQuote key
  | .typeError msg => msg
  | .attributeError msg => msg

/-- Python subscripting `j[k]` with a string key: dict lookup raising
`KeyError` on a missing key, `TypeError` on any non-dict value. -/
def Json.getItem : Json → String → Except PyError Json
  | .obj fields, k =>
    match fields.lookup k with
    | some v => Except.ok v
    | none => Except.error (PyError.keyError k)
  | .str _, _ => Except.error (PyError.typeError "string indices must be integers")
  | .arr _, _ => Except.error (PyError.typeError "list indices must be integers")
  | _, _ => Except.error (PyError.typeError "object is not subscriptable")

/-- Whether the character list `needle` occurs contiguously in `hay`
(Python substring membership). -/
def listHasSub (needle hay : List Char) : Bool :=
  (List.range (hay.length + 1)).any (fun i => (hay.drop i).take needle.length == needle)

/-- Python membership `k in j` for a string `k`: key membership for
dicts, element equality for lists (a non-string element never equals a
string), substring test for strings, `TypeError` otherwise. -/
def Json.pyContains : Json → String → Except PyError Bool
  | .obj fields, k => Except.ok (fields.lookup k).isSome
  | .arr xs, k =>
    Except.ok (xs.any (fun x => match x with | .str s => s == k | _ => false))
  | .str s, k => Except.ok (listHasSub k.data s.data)
  | _, _ => Except.error (PyError.typeError "argument is not iterable")

/-- Python `d.get(k, default)`: total on dicts, `AttributeError` on any
other value (only dicts have a `get` method). -/
def Json.dictGet (j : Json) (k : String) (default : Json) : Except PyError Json :=
  match j with
  | .obj fields => Except.ok ((fields.lookup k).getD default)
  | _ => Except.error (PyError.attributeError "object has no attribute get")

/-- The key list of a JSON object (used to state that a payload carries
exactly a given set of fields). -/
def Json.keys : Json → List String
  | .obj fields => fields.map Prod.fst
  | _ => []

/-! ### Action memory -/

/-- One element of the global `action_memory` list: the dict
`\x7b'action': ..., 'result': ..., 'timestamp': ...\x7d` built by
`add_to_memory`, with the timestamp (`datetime.now().isoformat()`)
carried as an opaque string. -/
structure MemoryEntry where
  action : String
  result : Json
  timestamp : String

/-- Model of `add_to_memory(action, result)`: append the new entry, then, when the
list holds more than 20 entries, `pop(0)` the single oldest one.  The
current time is passed explicitly as `now`. -/
def add_to_memory (mem : List MemoryEntry) (action : String) (result : Json)
    (now : String) : List MemoryEntry :=
  let mem2 := mem ++ [⟨action, result, now⟩]
  if mem2.length > 20 then mem2.drop 1 else mem2

/-- The line format used by `get_memory_summary` for one entry:
`[timestamp] action: str(result)[:80]`. -/
def renderEntry (a : MemoryEntry) : String :=
  "[" ++ a.timestamp ++ "] " ++ a.action ++ ": " ++ pySlice a.result.pyStr 80

/-- Model of `get_memory_summary()`: the fixed sentinel on an empty log, otherwise
the last five entries (`action_memory[-5:]`), rendered one per line and
joined with newlines. -/
def get_memory_summary (mem : List MemoryEntry) : String :=
  if mem.isEmpty then "No recent actions."
  else String.intercalate "\n" ((mem.drop (mem.length - 5)).map renderEntry)

/-- Replaying a sequence of `add_to_memory(action, result)` operations
(each a triple of action label, result and timestamp) over the global
list. -/
def runMemory (mem : List MemoryEntry) (ops : List (String × Json × String)) :
    List MemoryEntry :=
  ops.foldl (fun m o => add_to_memory m o.1 o.2.1 o.2.2) mem

/-- The entry an operation triple turns into. -/
def entryOf (o : String × Json × String) : MemoryEntry := ⟨o.1, o.2.1, o.2.2⟩

/-! ### The HTTP A2A client -/

/-- An HTTP response as the client sees it: the status code and the JSON
body `response.json()` parses to. -/
structure HttpResponse where
  status : Nat
  body : Json

/-- The state of a `BabylonA2AClient` instance: the constructor arguments
plus the mutable `message_id` counter, and the derived
`agent_id = f"11155111:{token_id}"`. -/
structure BabylonA2AClient where
  http_url : String
  address : String
  token_id : Nat
  private_key : String
  message_id : Nat
  agent_id : String

/-- Model of `BabylonA2AClient.__init__`: stores the constructor arguments, starts
the `message_id` counter at 1 and derives the agent id
`"11155111:<token_id>"`. -/
def BabylonA2AClient.init (http_url address : String) (token_id : Nat)
    (private_key : String) : BabylonA2AClient :=
  { http_url := http_url, address := address, token_id := token_id,
    private_key := private_key, message_id := 1,
    agent_id := "11155111:" ++ toString token_id }

/-- The JSON-RPC envelope `call` posts. -/
structure RpcRequest where
  jsonrpc : String
  method : String
  params : Json
  id : Nat

/-- Everything one invocation of `call` produces: the envelope and
headers of the single POST it performs, the successor client state, and
its outcome (the body's `result` on success, the raised exception
otherwise). -/
structure CallResult where
  request : RpcRequest
  headers : List (String × String)
  client : BabylonA2AClient
  outcome : Except PyError Json

/-- Model of `BabylonA2AClient.call(method, params)`: take the next request id and
bump the counter, build the JSON-RPC 2.0 envelope (`params or \x7b\x7d`
defaults a missing params argument to the empty dict) and the four agent
headers, POST once, then `raise_for_status()` (an `httpx` client raises
on every non-2xx status), then raise `Exception(f"A2A Error:
\x7bresult['error']['message']\x7d")` when the body contains an `error`
field, and otherwise return `result['result']`.  The server's response
is passed in as `resp`. -/
def BabylonA2AClient.call (c : BabylonA2AClient) (method : String)
    (params : Option Json) (resp : HttpResponse) : CallResult :=
  let request_id := c.message_id
  let c2 := { c with message_id := c.message_id + 1 }
  let message : RpcRequest :=
    { jsonrpc := "2.0", method := method,
      params := params.getD (Json.obj []), id := request_id }
  let headers := [("Content-Type", "application/json"),
    ("x-agent-id", c.agent_id),
    ("x-agent-address", c.address),
    ("x-agent-token-id", toString c.token_id)]
  let outcome : Except PyError Json :=
    if 200 ≤ resp.status ∧ resp.status < 300 then
      match resp.body.pyContains "error" with
      | Except.error e => Except.error e
      | Except.ok true =>
        match resp.body.getItem "error" with
        | Except.error e => Except.error e
        | Except.ok errVal =>
          match errVal.getItem "message" with
          | Except.error e => Except.error e
          | Except.ok m => Except.error (PyError.exc ("A2A Error: " ++ m.pyStr))
      | Except.ok false => resp.body.getItem "result"
    else
      Except.error (PyError.httpStatusError resp.status)
  { request := message, headers := headers, client := c2, outcome := outcome }

/-- A sequence of `call` invocations on one client instance, each given
as (method, params, response); returns the per-call results and the
final client state. -/
def callSeq (c : BabylonA2AClient) :
    List (String × Option Json × HttpResponse) → List CallResult × BabylonA2AClient
  | [] => ([], c)
  | (m, p, r) :: rest =>
    let res := c.call m p r
    let l := callSeq res.client rest
    (res :: l.1, l.2)

/-! ### LangGraph tool adapters

Each `@tool` coroutine wraps its body in `try/except Exception`, returning
`json.dumps` of either the call's result or the structured payload
`\x7b'error': str(e)\x7d`; the embedding returns the JSON value handed to
`json.dumps` (serialisation itself is the standard library's).  The
responses the server would give to the underlying `call`s are passed in
explicitly, as are the global client state and action-memory list. -/

/-- What one tool adapter invocation produces: the JSON-RPC envelopes of
the `call`s it performed, the successor client state and action-memory
list, and the JSON payload it returns (through `json.dumps`). -/
structure ToolResult where
  requests : List RpcRequest
  client : BabylonA2AClient
  memory : List MemoryEntry
  payload : Json

/-- Model of `get_markets()`: one `a2a.getMarketData` call with empty params;
returns the result, or `\x7b'error': str(e)\x7d` when the call raised. -/
def get_markets (c : BabylonA2AClient) (mem : List MemoryEntry)
    (resp : HttpResponse) : ToolResult :=
  let r := c.call "a2a.getMarketData" (some (Json.obj [])) resp
  match r.outcome with
  | Except.ok result =>
    { requests := [r.request], client := r.client, memory := mem, payload := result }
  | Except.error e =>
    { requests := [r.request], client := r.client, memory := mem,
      payload := Json.obj [("error", Json.str e.str)] }

/-- Model of `get_portfolio()`: an `a2a.getBalance` call then an
`a2a.getPositions` call with `userId` set to the client's agent id;
returns `\x7b'balance': balance.get('balance', 0), 'positions':
positions\x7d`, or `\x7b'error': str(e)\x7d` when anything raised. -/
def get_portfolio (c : BabylonA2AClient) (mem : List MemoryEntry)
    (balanceResp positionsResp : HttpResponse) : ToolResult :=
  let r1 := c.call "a2a.getBalance" (some (Json.obj [])) balanceResp
  match r1.outcome with
  | Except.error e =>
    { requests := [r1.request], client := r1.client, memory := mem,
      payload := Json.obj [("error", Json.str e.str)] }
  | Except.ok balance =>
    let r2 := r1.client.call "a2a.getPositions"
      (some (Json.obj [("userId", Json.str r1.client.agent_id)])) positionsResp
    match r2.outcome with
    | Except.error e =>
      { requests := [r1.request, r2.request], client := r2.client, memory := mem,
        payload := Json.obj [("error", Json.str e.str)] }
    | Except.ok positions =>
      match balance.dictGet "balance" (Json.num 0) with
      | Except.error e =>
        { requests := [r1.request, r2.request], client := r2.client, memory := mem,
          payload := Json.obj [("error", Json.str e.str)] }
      | Except.ok b =>
        { requests := [r1.request, r2.request], client := r2.client, memory := mem,
          payload := Json.obj [("balance", b), ("positions", positions)] }

/-- Model of `buy_shares(market_id, outcome, amount)`: one `a2a.buyShares` call
with the outcome uppercased, recording `BUY_<OUTCOME>` to the action
memory on success.  The float `amount` is carried opaquely as a JSON
value. -/
def buy_shares (c : BabylonA2AClient) (mem : List MemoryEntry) (now : String)
    (market_id outcome : String) (amount : Json) (resp : HttpResponse) : ToolResult :=
  let r := c.call "a2a.buyShares"
    (some (Json.obj [("marketId", Json.str market_id),
      ("outcome", Json.str (pyUpper outcome)), ("amount", amount)])) resp
  match r.outcome with
  | Except.ok result =>
    { requests := [r.request], client := r.client,
      memory := add_to_memory mem ("BUY_" ++ pyUpper outcome) result now,
      payload := result }
  | Except.error e =>
    { requests := [r.request], client := r.client, memory := mem,
      payload := Json.obj [("error", Json.str e.str)] }

/-- Model of `create_post(content)`: one `a2a.createPost` call with the content
truncated to 280 characters and type "post", recording `CREATE_POST` to
the action memory on success. -/
def create_post (c : BabylonA2AClient) (mem : List MemoryEntry) (now : String)
    (content : String) (resp : HttpResponse) : ToolResult :=
  let r := c.call "a2a.createPost"
    (some (Json.obj [("content", Json.str (pySlice content 280)),
      ("type", Json.str "post")])) resp
  match r.outcome with
  | Except.ok result =>
    { requests := [r.request], client := r.client,
      memory := add_to_memory mem "CREATE_POST" result now,
      payload := result }
  | Except.error e =>
    { requests := [r.request], client := r.client, memory := mem,
      payload := Json.obj [("error", Json.str e.str)] }

/-! ### The main autonomous loop (Phase 4 of `main`) -/

/-- Observable events of one iteration of the Phase-4 `while True` loop:
the tick banner printed after `tick_count += 1`, the decision print or
the caught-and-logged tick error, and the fixed-interval
`asyncio.sleep`. -/
inductive TickEvent where
  | tickStart : Nat → TickEvent
  | decideOk : Nat → String → TickEvent
  | tickError : Nat → String → TickEvent
  | sleep : Nat → TickEvent

/-- Whether an event is the inter-tick sleep. -/
def TickEvent.isSleep : TickEvent → Bool
  | .sleep _ => true
  | _ => false

/-- One iteration of the autonomous loop: increment `tick_count`, run
`babylon_agent.decide` inside `try/except Exception` (its outcome is
passed in: the decision string, or the exception it raised), log either
way, then sleep for `tick_interval` seconds.  Returns the new tick count
and the iteration's event trace. -/
def mainTick (tick_count tick_interval : Nat)
    (decideOutcome : Except PyError String) : Nat × List TickEvent :=
  let n := tick_count + 1
  let body := match decideOutcome with
    | Except.ok d => [TickEvent.decideOk n d]
    | Except.error e => [TickEvent.tickError n e.str]
  (n, (TickEvent.tickStart n :: body) ++ [TickEvent.sleep tick_interval])

/-- The autonomous loop run for finitely many ticks, driven by the list
of per-tick `decide` outcomes; returns the final tick count and the
concatenated event trace. -/
def mainLoop (tick_count tick_interval : Nat) :
    List (Except PyError String) → Nat × List TickEvent
  | [] => (tick_count, [])
  | outcome :: rest =>
    let t := mainTick tick_count tick_interval outcome
    let l := mainLoop t.1 tick_interval rest
    (l.1, t.2 ++ l.2)



/-- Every call a client performs attaches the four headers built from
the client's identity fields, which `call` never mutates. -/
theorem callSeq_headers (c : BabylonA2AClient)
    (reqs : List (String × Option Json × HttpResponse)) (res : CallResult)
    (h : res ∈ (callSeq c reqs).1) :
    res.headers = [("Content-Type", "application/json"),
      ("x-agent-id", c.agent_id),
      ("x-agent-address", c.address),
      ("x-agent-token-id", toString c.token_id)] := by
  induction reqs generalizing c with
  | nil => simp [callSeq] at h
  | cons x rest ih =>
    obtain ⟨m, p, r⟩ := x
    rw [show (callSeq c ((m, p, r) :: rest)).1
        = c.call m p r :: (callSeq (c.call m p r).client rest).1 from rfl] at h
    rcases List.mem_cons.mp h with h1 | h1
    · subst h1; rfl
    · exact ih (c.call m p r).client h1

/-- Claim C4: every invocation of `call` over the lifetime of a
constructed client attaches exactly four headers: the JSON content type,
`x-agent-id` = "11155111:<token_id>" (Sepolia chain id, colon, token
id), `x-agent-address` = the constructor's wallet address, and
`x-agent-token-id` = the decimal string of the constructor's token
id. -/
theorem claim_C4 (u a : String) (t : Nat) (k : String)
    (reqs : List (String × Option Json × HttpResponse)) (res : CallResult)
    (h : res ∈ (callSeq (BabylonA2AClient.init u a t k) reqs).1) :
    res.headers.length = 4 ∧
    res.headers = [("Content-Type", "application/json"),
      ("x-agent-id", "11155111:" ++ toString t),
      ("x-agent-address", a),
      ("x-agent-token-id", toString t)] := by
  have h4 := callSeq_headers (BabylonA2AClient.init u a t k) reqs res h
  exact ⟨by rw [h4]; rfl, h4⟩

/-- Witness for claim C4 at a concrete client and a one-call sequence. -/
theorem claim_C4_witness :
    ((BabylonA2AClient.init "http://x" "0xabc" 7 "pk").call "m" none
        ⟨200, Json.null⟩).headers.length = 4 ∧
    ((BabylonA2AClient.init "http://x" "0xabc" 7 "pk").call "m" none
        ⟨200, Json.null⟩).headers = [("Content-Type", "application/json"),
      ("x-agent-id", "11155111:" ++ toString 7),
      ("x-agent-address", "0xabc"),
      ("x-agent-token-id", toString 7)] :=
  claim_C4 "http://x" "0xabc" 7 "pk" [("m", none, ⟨200, Json.null⟩)] _
    (by rw [show (callSeq (BabylonA2AClient.init "http://x" "0xabc" 7 "pk")
        [("m", none, ⟨200, Json.null⟩)]).1
      = [(BabylonA2AClient.init "http://x" "0xabc" 7 "pk").call "m" none ⟨200, Json.null⟩]
      from rfl]; exact List.mem_singleton.mpr rfl)

/-- Every run of the autonomous loop: the tick counter advances by
exactly one per tick regardless of decide failures, every tick ends with
its inter-tick sleep, and every tick banner appears in the trace. -/
theorem mainLoop_spec (i : Nat) (outs : List (Except PyError String)) :
    ∀ c : Nat,
    (mainLoop c i outs).1 = c + outs.length ∧
    (mainLoop c i outs).2.countP TickEvent.isSleep = outs.length ∧
    (∀ k, k < outs.length → TickEvent.tickStart (c + k + 1) ∈ (mainLoop c i outs).2) := by
  induction outs with
  | nil => intro c; simp [mainLoop]
  | cons o rest ih =>
    intro c
    have hrec := ih (c + 1)
    rw [show mainLoop c i (o :: rest)
        = ((mainLoop (c + 1) i rest).1, (mainTick c i o).2 ++ (mainLoop (c + 1) i rest).2)
        from rfl]
    refine ⟨?_, ?_, ?_⟩
    · rw [hrec.1]; simp; omega
    · rw [List.countP_append, hrec.2.1]
      have h1 : (mainTick c i o).2.countP TickEvent.isSleep = 1 := by
        cases o <;> simp [mainTick, TickEvent.isSleep]
      rw [h1]; simp [Nat.add_comm]
    · intro k hk
      cases k with
      | zero =>
        apply List.mem_append_left
        cases o <;> simp [mainTick]
      | succ k0 =>
        apply List.mem_append_right
        have := hrec.2.2 k0 (by simp at hk; omega)
        rw [show c + (k0 + 1) + 1 = c + 1 + k0 + 1 by omega]
        exact this

/-- Claim C5: a tick whose `decide` call raises never propagates the
exception out of the loop — the tick counter still advances by one for
every tick (failed or not), every tick still performs the fixed-interval
sleep, and the loop proceeds to the next tick; a failed tick produces
exactly the banner, the logged error, and the sleep. -/
theorem claim_C5 (i : Nat) (outs : List (Except PyError String)) :
    (mainLoop 0 i outs).1 = outs.length ∧
    (mainLoop 0 i outs).2.countP TickEvent.isSleep = outs.length ∧
    (∀ k, k < outs.length → TickEvent.tickStart (k + 1) ∈ (mainLoop 0 i outs).2) ∧
    (∀ n e, mainTick n i (Except.error e)
        = (n + 1, [TickEvent.tickStart (n + 1), TickEvent.tickError (n + 1) (PyError.str e),
            TickEvent.sleep i])) := by
  have h := mainLoop_spec i outs 0
  refine ⟨by rw [h.1]; omega, h.2.1, ?_, fun n e => rfl⟩
  intro k hk
  have := h.2.2 k hk
  rw [show (0 : Nat) + k + 1 = k + 1 by omega] at this
  exact this

/-- Witness for claim C5 at a one-tick run whose decide call raises. -/
theorem claim_C5_witness :
    (mainLoop 0 30 [Except.error (PyError.exc "boom")]).1 = 1 ∧
    (mainLoop 0 30 [Except.error (PyError.exc "boom")]).2.countP TickEvent.isSleep = 1 ∧
    TickEvent.tickStart 1 ∈ (mainLoop 0 30 [Except.error (PyError.exc "boom")]).2 :=
  ⟨(claim_C5 30 [Except.error (PyError.exc "boom")]).1,
   (claim_C5 30 [Except.error (PyError.exc "boom")]).2.1,
   (claim_C5 30 [Except.error (PyError.exc "boom")]).2.2.1 0 (by simp)⟩



/-- The request ids a sequence of calls attaches are consecutive,
starting at the client's current counter value. -/
theorem callSeq_ids (c : BabylonA2AClient)
    (reqs : List (String × Option Json × HttpResponse)) :
    ((callSeq c reqs).1).map (fun r => r.request.id)
      = List.range' c.message_id reqs.length := by
  induction reqs generalizing c with
  | nil => rfl
  | cons x rest ih =>
    obtain ⟨m, p, r⟩ := x
    show c.message_id :: ((callSeq (c.call m p r).client rest).1).map (fun s => s.request.id)
        = List.range' c.message_id (rest.length + 1)
    rw [List.range'_succ c.message_id rest.length 1, ih]
    rfl

/-- `List.range'` ascends in steps of exactly one. -/
theorem chainSucc_range' (n : Nat) : ∀ s : Nat,
    List.Chain' (fun x y => y = x + 1) (List.range' s n) := by
  induction n with
  | zero => intro s; simp
  | succ n ih =>
    intro s
    rw [List.range'_succ s n 1]
    cases n with
    | zero => simp
    | succ m =>
      rw [List.range'_succ (s + 1) m 1]
      exact List.chain'_cons.mpr ⟨rfl, by rw [← List.range'_succ (s + 1) m 1]; exact ih (s + 1)⟩

/-- Claim C2: on one client instance the request ids of a sequence of n
calls are exactly 1, 2, ..., n — the counter starts at 1, each call
increments it by exactly 1, and no id is ever reused. -/
theorem claim_C2 (u a : String) (t : Nat) (k : String)
    (reqs : List (String × Option Json × HttpResponse)) :
    ((callSeq (BabylonA2AClient.init u a t k) reqs).1).map (fun r => r.request.id)
        = List.range' 1 reqs.length ∧
    (((callSeq (BabylonA2AClient.init u a t k) reqs).1).map (fun r => r.request.id)).Nodup ∧
    List.Chain' (fun x y => y = x + 1)
      (((callSeq (BabylonA2AClient.init u a t k) reqs).1).map (fun r => r.request.id)) := by
  have h := callSeq_ids (BabylonA2AClient.init u a t k) reqs
  refine ⟨h, ?_, ?_⟩
  · rw [h]; exact List.nodup_range' 1 reqs.length
  · rw [h]; exact chainSucc_range' reqs.length 1

/-- One `add_to_memory` step on a log of at most 20 entries: append,
then drop whatever exceeds 20 from the front (nothing, or exactly the
single oldest entry). -/
theorem add_to_memory_eq (mem : List MemoryEntry) (a : String) (res : Json) (now : String)
    (h : mem.length ≤ 20) :
    add_to_memory mem a res now
      = (mem ++ [MemoryEntry.mk a res now]).drop ((mem.length + 1) - 20) := by
  unfold add_to_memory
  rcases Nat.lt_or_ge mem.length 20 with h20 | h20
  · rw [if_neg (by simp; omega)]
    rw [Nat.sub_eq_zero_of_le (by omega), List.drop_zero]
  · have h20' : mem.length = 20 := by omega
    rw [if_pos (by simp; omega), h20']

/-- Replaying `add_to_memory` operations over any log of at most 20
entries keeps exactly the newest 20 of the combined sequence. -/
theorem runMemory_eq (ops : List (String × Json × String)) :
    ∀ s : List MemoryEntry, s.length ≤ 20 →
    runMemory s ops = (s ++ ops.map entryOf).drop ((s.length + ops.length) - 20) := by
  induction ops with
  | nil =>
    intro s h
    simp [runMemory, Nat.sub_eq_zero_of_le h]
  | cons o rest ih =>
    intro s h
    rw [show runMemory s (o :: rest) = runMemory (add_to_memory s o.1 o.2.1 o.2.2) rest from rfl]
    rw [show add_to_memory s o.1 o.2.1 o.2.2
        = (s ++ [entryOf o]).drop ((s.length + 1) - 20) from add_to_memory_eq s _ _ _ h]
    rcases Nat.lt_or_ge s.length 20 with h20 | h20
    · have e0 : (s.length + 1 - 20) = 0 := by omega
      rw [e0, List.drop_zero]
      rw [ih (s ++ [entryOf o]) (by simp; omega)]
      congr 1
      · simp only [List.length_append, List.length_cons, List.length_nil]
        omega
      · simp
    · have h20' : s.length = 20 := by omega
      have e1 : (s.length + 1 - 20) = 1 := by omega
      rw [e1]
      have hlen : ((s ++ [entryOf o]).drop 1).length ≤ 20 := by simp [h20']
      rw [ih _ hlen]
      have hstep : ((s ++ [entryOf o]).drop 1).length = 20 := by simp [h20']
      rw [hstep]
      have hside : (1 : Nat) ≤ (s ++ [entryOf o]).length := by simp
      rw [← List.drop_append_of_le_length hside, List.drop_drop]
      congr 1
      · simp only [List.length_cons]
        omega
      · simp

/-- Claim C3: the action memory never exceeds 20 entries; after n
appends (from the empty initial log) exactly the newest min(n, 20)
entries remain, in insertion order — everything older has been evicted
one entry at a time from the front, strict FIFO. -/
theorem claim_C3 (ops : List (String × Json × String)) :
    (runMemory [] ops).length ≤ 20 ∧
    (runMemory [] ops).length = min ops.length 20 ∧
    runMemory [] ops = (ops.map entryOf).drop (ops.length - 20) := by
  have h := runMemory_eq ops [] (by simp)
  simp only [List.nil_append, List.length_nil, Nat.zero_add] at h
  refine ⟨?_, ?_, h⟩ <;> rw [h] <;> simp only [List.length_drop, List.length_map] <;> omega
end Babylon
namespace Babylon

/-- The outcome of `call` as a standalone expression: the
`raise_for_status` check, then the `error`-field check, then the
`result` lookup. -/
theorem call_outcome (c : BabylonA2AClient) (method : String) (params : Option Json)
    (resp : HttpResponse) :
    (c.call method params resp).outcome =
      if 200 ≤ resp.status ∧ resp.status < 300 then
        match resp.body.pyContains "error" with
        | Except.error e => Except.error e
        | Except.ok true =>
          match resp.body.getItem "error" with
          | Except.error e => Except.error e
          | Except.ok errVal =>
            match errVal.getItem "message" with
            | Except.error e => Except.error e
            | Except.ok m => Except.error (PyError.exc ("A2A Error: " ++ m.pyStr))
        | Except.ok false => resp.body.getItem "result"
      else Except.error (PyError.httpStatusError resp.status) := rfl

/-- A 2xx response whose body carries an `error` object with a string
`message` makes `call` raise the protocol error `A2A Error: <message>`. -/
theorem call_remote_error (c : BabylonA2AClient) (method : String) (params : Option Json)
    (resp : HttpResponse) (fields efields : List (String × Json)) (m : String)
    (h1 : 200 ≤ resp.status) (h2 : resp.status < 300)
    (hbody : resp.body = Json.obj fields)
    (herr : fields.lookup "error" = some (Json.obj efields))
    (hmsg : efields.lookup "message" = some (Json.str m)) :
    (c.call method params resp).outcome
      = Except.error (PyError.exc ("A2A Error: " ++ m)) := by
  rw [call_outcome, hbody, if_pos ⟨h1, h2⟩]
  simp [Json.pyContains, Json.getItem, herr, hmsg, Json.pyStr]

/-- Claim C1: `call` raises a transport failure on every non-2xx status;
raises a protocol failure whose text contains the remote-supplied error
message when the body carries an `error` field; raises a failure (a
`KeyError`) when the body carries neither `result` nor `error`; returns
the body's `result` otherwise — and its only successful outcomes come
from a body carrying a `result` field and no `error` field. -/
theorem claim_C1 (c : BabylonA2AClient) (method : String) (params : Option Json)
    (resp : HttpResponse) :
    (¬ (200 ≤ resp.status ∧ resp.status < 300) →
      (c.call method params resp).outcome
        = Except.error (PyError.httpStatusError resp.status)) ∧
    (∀ fields efields m, 200 ≤ resp.status → resp.status < 300 →
      resp.body = Json.obj fields →
      fields.lookup "error" = some (Json.obj efields) →
      efields.lookup "message" = some (Json.str m) →
      (c.call method params resp).outcome
          = Except.error (PyError.exc ("A2A Error: " ++ m)) ∧
      ∃ pre post, "A2A Error: " ++ m = pre ++ m ++ post) ∧
    (∀ fields, 200 ≤ resp.status → resp.status < 300 →
      resp.body = Json.obj fields →
      fields.lookup "error" = none → fields.lookup "result" = none →
      (c.call method params resp).outcome
        = Except.error (PyError.keyError "result")) ∧
    (∀ fields v, 200 ≤ resp.status → resp.status < 300 →
      resp.body = Json.obj fields →
      fields.lookup "error" = none → fields.lookup "result" = some v →
      (c.call method params resp).outcome = Except.ok v) ∧
    (∀ v, (c.call method params resp).outcome = Except.ok v →
      ∃ fields, resp.body = Json.obj fields ∧ fields.lookup "error" = none ∧
        fields.lookup "result" = some v) := by
  refine ⟨?_, ?_, ?_, ?_, ?_⟩
  · intro h
    rw [call_outcome, if_neg h]
  · intro fields efields m h1 h2 hbody herr hmsg
    exact ⟨call_remote_error c method params resp fields efields m h1 h2 hbody herr hmsg,
      "A2A Error: ", "", by simp⟩
  · intro fields h1 h2 hbody herr hres
    rw [call_outcome, hbody, if_pos ⟨h1, h2⟩]
    simp [Json.pyContains, Json.getItem, herr, hres]
  · intro fields v h1 h2 hbody herr hres
    rw [call_outcome, hbody, if_pos ⟨h1, h2⟩]
    simp [Json.pyContains, Json.getItem, herr, hres]
  · intro v hok
    rw [call_outcome] at hok
    by_cases hs : 200 ≤ resp.status ∧ resp.status < 300
    · rw [if_pos hs] at hok
      cases hbody : resp.body with
      | null => rw [hbody] at hok; simp [Json.pyContains] at hok
      | bool b => rw [hbody] at hok; simp [Json.pyContains] at hok
      | num n => rw [hbody] at hok; simp [Json.pyContains] at hok
      | str s =>
        rw [hbody] at hok
        simp only [Json.pyContains] at hok
        cases hsub : listHasSub "error".data s.data <;> rw [hsub] at hok <;>
          simp [Json.getItem] at hok
      | arr xs =>
        rw [hbody] at hok
        simp only [Json.pyContains] at hok
        cases hsub : xs.any (fun x => match x with | Json.str s => s == "error" | _ => false) <;>
          rw [hsub] at hok <;> simp [Json.getItem] at hok
      | obj fields =>
        rw [hbody] at hok
        simp only [Json.pyContains] at hok
        cases herr : fields.lookup "error" with
        | some errv =>
          rw [herr] at hok
          simp only [Option.isSome_some] at hok
          have hgi : Json.getItem (Json.obj fields) "error" = Except.ok errv := by
            simp [Json.getItem, herr]
          rw [hgi] at hok
          simp only [] at hok
          cases hmsg : errv.getItem "message" with
          | error e => rw [hmsg] at hok; simp at hok
          | ok mv => rw [hmsg] at hok; simp at hok
        | none =>
          rw [herr] at hok
          simp only [Option.isSome_none] at hok
          cases hres : fields.lookup "result" with
          | none =>
            have hgi : Json.getItem (Json.obj fields) "result"
                = Except.error (PyError.keyError "result") := by
              simp [Json.getItem, hres]
            rw [hgi] at hok
            simp at hok
          | some w =>
            have hgi : Json.getItem (Json.obj fields) "result" = Except.ok w := by
              simp [Json.getItem, hres]
            rw [hgi] at hok
            simp only [Except.ok.injEq] at hok
            exact ⟨fields, rfl, herr, by rw [hres, hok]⟩
    · rw [if_neg hs] at hok
      simp at hok

/-- Witness for claim C1: a 404 raises the transport error; a 2xx body
with an error message raises the protocol error carrying it; a 2xx body
with neither `result` nor `error` raises a `KeyError`; a 2xx body with a
`result` returns it. -/
theorem claim_C1_witness :
    ((BabylonA2AClient.init "http://x" "0xabc" 7 "pk").call "m" none
        ⟨404, Json.null⟩).outcome = Except.error (PyError.httpStatusError 404) ∧
    ((BabylonA2AClient.init "http://x" "0xabc" 7 "pk").call "m" none
        ⟨200, Json.obj [("error", Json.obj [("message", Json.str "boom")])]⟩).outcome
        = Except.error (PyError.exc ("A2A Error: " ++ "boom")) ∧
    ((BabylonA2AClient.init "http://x" "0xabc" 7 "pk").call "m" none
        ⟨200, Json.obj [("ok", Json.num 1)]⟩).outcome
        = Except.error (PyError.keyError "result") ∧
    ((BabylonA2AClient.init "http://x" "0xabc" 7 "pk").call "m" none
        ⟨200, Json.obj [("result", Json.num 5)]⟩).outcome = Except.ok (Json.num 5) ∧
    (∃ fields, (Json.obj [("result", Json.num 5)]) = Json.obj fields ∧
      fields.lookup "error" = none ∧ fields.lookup "result" = some (Json.num 5)) :=
  ⟨(claim_C1 (BabylonA2AClient.init "http://x" "0xabc" 7 "pk") "m" none
      ⟨404, Json.null⟩).1 (by decide),
   ((claim_C1 (BabylonA2AClient.init "http://x" "0xabc" 7 "pk") "m" none
      ⟨200, Json.obj [("error", Json.obj [("message", Json.str "boom")])]⟩).2.1
      [("error", Json.obj [("message", Json.str "boom")])] [("message", Json.str "boom")]
      "boom" (by decide) (by decide) rfl rfl rfl).1,
   (claim_C1 (BabylonA2AClient.init "http://x" "0xabc" 7 "pk") "m" none
      ⟨200, Json.obj [("ok", Json.num 1)]⟩).2.2.1
      [("ok", Json.num 1)] (by decide) (by decide) rfl rfl rfl,
   (claim_C1 (BabylonA2AClient.init "http://x" "0xabc" 7 "pk") "m" none
      ⟨200, Json.obj [("result", Json.num 5)]⟩).2.2.2.1
      [("result", Json.num 5)] (Json.num 5) (by decide) (by decide) rfl rfl rfl,
   (claim_C1 (BabylonA2AClient.init "http://x" "0xabc" 7 "pk") "m" none
      ⟨200, Json.obj [("result", Json.num 5)]⟩).2.2.2.2 (Json.num 5) rfl⟩
end Babylon
namespace Babylon

/-- The entry most recently handed to `add_to_memory` is always the last
element of the resulting log. -/
theorem add_to_memory_getLast (mem : List MemoryEntry) (a : String) (res : Json)
    (now : String) :
    (add_to_memory mem a res now).getLast? = some (MemoryEntry.mk a res now) := by
  unfold add_to_memory
  by_cases h : (mem ++ [MemoryEntry.mk a res now]).length > 20
  · rw [if_pos h]
    cases mem with
    | nil => simp at h
    | cons x xs =>
      rw [show ((x :: xs) ++ [MemoryEntry.mk a res now] : List MemoryEntry).drop 1
          = xs ++ [MemoryEntry.mk a res now] from rfl]
      exact List.getLast?_concat _
  · rw [if_neg h]
    exact List.getLast?_concat _

/-- Claim C6: a tool adapter never raises — `get_markets` turns every
failure of the underlying call into the structured payload
`\x7b'error': str(e)\x7d`, and for a remote protocol error the payload's
string contains the remote-supplied error text. -/
theorem claim_C6 (c : BabylonA2AClient) (mem : List MemoryEntry) (resp : HttpResponse) :
    (∀ e, (c.call "a2a.getMarketData" (some (Json.obj [])) resp).outcome = Except.error e →
      (get_markets c mem resp).payload = Json.obj [("error", Json.str (PyError.str e))]) ∧
    (∀ fields efields m, 200 ≤ resp.status → resp.status < 300 →
      resp.body = Json.obj fields →
      fields.lookup "error" = some (Json.obj efields) →
      efields.lookup "message" = some (Json.str m) →
      (get_markets c mem resp).payload
          = Json.obj [("error", Json.str ("A2A Error: " ++ m))] ∧
      ∃ pre post, "A2A Error: " ++ m = pre ++ m ++ post) := by
  constructor
  · intro e he
    simp [get_markets, he]
  · intro fields efields m h1 h2 hbody herr hmsg
    have he := call_remote_error c "a2a.getMarketData" (some (Json.obj [])) resp
      fields efields m h1 h2 hbody herr hmsg
    refine ⟨?_, "A2A Error: ", "", by simp⟩
    simp [get_markets, he, PyError.str]

/-- Witness for claim C6: a transport failure and a remote protocol
error both become structured error payloads. -/
theorem claim_C6_witness :
    (get_markets (BabylonA2AClient.init "http://x" "0xabc" 7 "pk") []
        ⟨500, Json.null⟩).payload
      = Json.obj [("error", Json.str (PyError.str (PyError.httpStatusError 500)))] ∧
    (get_markets (BabylonA2AClient.init "http://x" "0xabc" 7 "pk") []
        ⟨200, Json.obj [("error", Json.obj [("message", Json.str "nope")])]⟩).payload
      = Json.obj [("error", Json.str ("A2A Error: " ++ "nope"))] :=
  ⟨(claim_C6 (BabylonA2AClient.init "http://x" "0xabc" 7 "pk") [] ⟨500, Json.null⟩).1
      (PyError.httpStatusError 500) rfl,
   ((claim_C6 (BabylonA2AClient.init "http://x" "0xabc" 7 "pk") []
        ⟨200, Json.obj [("error", Json.obj [("message", Json.str "nope")])]⟩).2
      [("error", Json.obj [("message", Json.str "nope")])] [("message", Json.str "nope")]
      "nope" (by decide) (by decide) rfl rfl rfl).1⟩

/-- Claim C7: `buy_shares` issues a single `a2a.buyShares` call whose
`outcome` parameter is the uppercased input, and on success appends a
memory entry labelled `BUY_<uppercased outcome>`. -/
theorem claim_C7 (c : BabylonA2AClient) (mem : List MemoryEntry)
    (now market_id outcome : String) (amount : Json) (resp : HttpResponse) :
    (∃ req : RpcRequest,
      (buy_shares c mem now market_id outcome amount resp).requests = [req] ∧
      req.method = "a2a.buyShares" ∧
      req.params = Json.obj [("marketId", Json.str market_id),
        ("outcome", Json.str (pyUpper outcome)), ("amount", amount)]) ∧
    (∀ result, (c.call "a2a.buyShares" (some (Json.obj [("marketId", Json.str market_id),
        ("outcome", Json.str (pyUpper outcome)), ("amount", amount)])) resp).outcome
          = Except.ok result →
      (buy_shares c mem now market_id outcome amount resp).memory
          = add_to_memory mem ("BUY_" ++ pyUpper outcome) result now ∧
      (buy_shares c mem now market_id outcome amount resp).memory.getLast?
          = some (MemoryEntry.mk ("BUY_" ++ pyUpper outcome) result now)) := by
  constructor
  · refine ⟨(c.call "a2a.buyShares" (some (Json.obj [("marketId", Json.str market_id),
      ("outcome", Json.str (pyUpper outcome)), ("amount", amount)])) resp).request,
      ?_, rfl, rfl⟩
    cases h : (c.call "a2a.buyShares" (some (Json.obj [("marketId", Json.str market_id),
        ("outcome", Json.str (pyUpper outcome)), ("amount", amount)])) resp).outcome with
    | ok r => simp [buy_shares, h]
    | error e => simp [buy_shares, h]
  · intro result h
    exact ⟨by simp [buy_shares, h], by simp [buy_shares, h, add_to_memory_getLast]⟩

/-- Witness for claim C7 on a lowercase "yes" outcome and a successful
response. -/
theorem claim_C7_witness :
    (∃ req : RpcRequest,
      (buy_shares (BabylonA2AClient.init "http://x" "0xabc" 7 "pk") [] "t0" "m1" "yes"
        (Json.num 10) ⟨200, Json.obj [("result", Json.num 1)]⟩).requests = [req] ∧
      req.method = "a2a.buyShares" ∧
      req.params = Json.obj [("marketId", Json.str "m1"),
        ("outcome", Json.str (pyUpper "yes")), ("amount", Json.num 10)]) ∧
    (buy_shares (BabylonA2AClient.init "http://x" "0xabc" 7 "pk") [] "t0" "m1" "yes"
        (Json.num 10) ⟨200, Json.obj [("result", Json.num 1)]⟩).memory
      = add_to_memory [] ("BUY_" ++ pyUpper "yes") (Json.num 1) "t0" ∧
    (buy_shares (BabylonA2AClient.init "http://x" "0xabc" 7 "pk") [] "t0" "m1" "yes"
        (Json.num 10) ⟨200, Json.obj [("result", Json.num 1)]⟩).memory.getLast?
      = some (MemoryEntry.mk ("BUY_" ++ pyUpper "yes") (Json.num 1) "t0") :=
  ⟨(claim_C7 (BabylonA2AClient.init "http://x" "0xabc" 7 "pk") [] "t0" "m1" "yes"
      (Json.num 10) ⟨200, Json.obj [("result", Json.num 1)]⟩).1,
   ((claim_C7 (BabylonA2AClient.init "http://x" "0xabc" 7 "pk") [] "t0" "m1" "yes"
      (Json.num 10) ⟨200, Json.obj [("result", Json.num 1)]⟩).2 (Json.num 1) rfl).1,
   ((claim_C7 (BabylonA2AClient.init "http://x" "0xabc" 7 "pk") [] "t0" "m1" "yes"
      (Json.num 10) ⟨200, Json.obj [("result", Json.num 1)]⟩).2 (Json.num 1) rfl).2⟩

/-- Claim C8: `create_post` issues a single `a2a.createPost` call whose
content is the input truncated to at most 280 characters and whose type
is "post", and on success appends a `CREATE_POST` memory entry. -/
theorem claim_C8 (c : BabylonA2AClient) (mem : List MemoryEntry) (now content : String)
    (resp : HttpResponse) :
    (∃ req : RpcRequest,
      (create_post c mem now content resp).requests = [req] ∧
      req.method = "a2a.createPost" ∧
      req.params = Json.obj [("content", Json.str (pySlice content 280)),
        ("type", Json.str "post")]) ∧
    (pySlice content 280).length ≤ 280 ∧
    (∀ result, (c.call "a2a.createPost" (some (Json.obj [("content",
        Json.str (pySlice content 280)), ("type", Json.str "post")])) resp).outcome
          = Except.ok result →
      (create_post c mem now content resp).memory
          = add_to_memory mem "CREATE_POST" result now ∧
      (create_post c mem now content resp).memory.getLast?
          = some (MemoryEntry.mk "CREATE_POST" result now)) := by
  refine ⟨?_, List.length_take_le 280 content.data, ?_⟩
  · refine ⟨(c.call "a2a.createPost" (some (Json.obj [("content",
      Json.str (pySlice content 280)), ("type", Json.str "post")])) resp).request,
      ?_, rfl, rfl⟩
    cases h : (c.call "a2a.createPost" (some (Json.obj [("content",
        Json.str (pySlice content 280)), ("type", Json.str "post")])) resp).outcome with
    | ok r => simp [create_post, h]
    | error e => simp [create_post, h]
  · intro result h
    exact ⟨by simp [create_post, h], by simp [create_post, h, add_to_memory_getLast]⟩

/-- Witness for claim C8 on a 500-character input and a successful
response. -/
theorem claim_C8_witness :
    (∃ req : RpcRequest,
      (create_post (BabylonA2AClient.init "http://x" "0xabc" 7 "pk") [] "t0"
        (String.mk (List.replicate 500 (Char.ofNat 120)))
        ⟨200, Json.obj [("result", Json.bool true)]⟩).requests = [req] ∧
      req.method = "a2a.createPost" ∧
      req.params = Json.obj [("content", Json.str
        (pySlice (String.mk (List.replicate 500 (Char.ofNat 120))) 280)),
        ("type", Json.str "post")]) ∧
    (pySlice (String.mk (List.replicate 500 (Char.ofNat 120))) 280).length ≤ 280 ∧
    (create_post (BabylonA2AClient.init "http://x" "0xabc" 7 "pk") [] "t0"
        (String.mk (List.replicate 500 (Char.ofNat 120)))
        ⟨200, Json.obj [("result", Json.bool true)]⟩).memory.getLast?
      = some (MemoryEntry.mk "CREATE_POST" (Json.bool true) "t0") :=
  ⟨(claim_C8 (BabylonA2AClient.init "http://x" "0xabc" 7 "pk") [] "t0"
      (String.mk (List.replicate 500 (Char.ofNat 120)))
      ⟨200, Json.obj [("result", Json.bool true)]⟩).1,
   (claim_C8 (BabylonA2AClient.init "http://x" "0xabc" 7 "pk") [] "t0"
      (String.mk (List.replicate 500 (Char.ofNat 120)))
      ⟨200, Json.obj [("result", Json.bool true)]⟩).2.1,
   ((claim_C8 (BabylonA2AClient.init "http://x" "0xabc" 7 "pk") [] "t0"
      (String.mk (List.replicate 500 (Char.ofNat 120)))
      ⟨200, Json.obj [("result", Json.bool true)]⟩).2.2 (Json.bool true) rfl).2⟩

/-- Claim C9: `get_memory_summary` returns the fixed sentinel exactly on
the empty log; on a non-empty log it renders the most recent
min(5, size) entries, in order with the most recent last, each as
`[timestamp] action: result-truncated-to-80`, joined by newlines; on a
one-entry log it returns that single rendered line. -/
theorem claim_C9 :
    get_memory_summary [] = "No recent actions." ∧
    (∀ mem : List MemoryEntry, mem ≠ [] →
      mem.take (mem.length - 5) ++ mem.drop (mem.length - 5) = mem ∧
      (mem.drop (mem.length - 5)).length = min 5 mem.length ∧
      get_memory_summary mem
        = String.intercalate "\n" ((mem.drop (mem.length - 5)).map renderEntry)) ∧
    (∀ e : MemoryEntry, get_memory_summary [e]
        = "[" ++ e.timestamp ++ "] " ++ e.action ++ ": " ++ pySlice e.result.pyStr 80) ∧
    (∀ a : MemoryEntry, (pySlice a.result.pyStr 80).length ≤ 80) := by
  refine ⟨rfl, ?_, ?_, ?_⟩
  · intro mem hne
    have hemp : mem.isEmpty = false := by
      cases mem with
      | nil => exact absurd rfl hne
      | cons x xs => rfl
    refine ⟨List.take_append_drop _ mem, ?_, ?_⟩
    · rw [List.length_drop]; omega
    · simp [get_memory_summary, hemp]
  · intro e
    rfl
  · intro a
    exact List.length_take_le 80 _

/-- Witness for claim C9 at a one-entry log. -/
theorem claim_C9_witness :
    get_memory_summary [MemoryEntry.mk "TEST" (Json.str "ok") "t1"] = "[t1] TEST: ok" ∧
    ([MemoryEntry.mk "TEST" (Json.str "ok") "t1"].drop (1 - 5)).length = min 5 1 :=
  ⟨by rw [claim_C9.2.2.1 (MemoryEntry.mk "TEST" (Json.str "ok") "t1")]; rfl,
   (claim_C9.2.1 [MemoryEntry.mk "TEST" (Json.str "ok") "t1"] (by simp)).2.1⟩

/-- Claim C10: on a successful pair of underlying calls `get_portfolio`
returns a mapping with exactly the keys `balance` and `positions`, where
`balance` silently defaults to 0 when the `a2a.getBalance` result has no
`balance` field, and the `a2a.getPositions` request carries the client's
agent id as `params.userId`. -/
theorem claim_C10 (c : BabylonA2AClient) (mem : List MemoryEntry)
    (balanceResp positionsResp : HttpResponse) (bfields : List (String × Json))
    (positions : Json)
    (hb : (c.call "a2a.getBalance" (some (Json.obj [])) balanceResp).outcome
        = Except.ok (Json.obj bfields))
    (hp : ((c.call "a2a.getBalance" (some (Json.obj [])) balanceResp).client.call
        "a2a.getPositions"
        (some (Json.obj [("userId", Json.str (c.call "a2a.getBalance" (some (Json.obj []))
            balanceResp).client.agent_id)])) positionsResp).outcome
        = Except.ok positions) :
    (get_portfolio c mem balanceResp positionsResp).payload
        = Json.obj [("balance", (bfields.lookup "balance").getD (Json.num 0)),
            ("positions", positions)] ∧
    Json.keys (get_portfolio c mem balanceResp positionsResp).payload
        = ["balance", "positions"] ∧
    (∃ req1 req2, (get_portfolio c mem balanceResp positionsResp).requests = [req1, req2] ∧
      req2.method = "a2a.getPositions" ∧
      req2.params = Json.obj [("userId", Json.str c.agent_id)]) := by
  refine ⟨?_, ?_, ?_⟩
  · simp [get_portfolio, hb, hp, Json.dictGet]
  · simp [get_portfolio, hb, hp, Json.dictGet, Json.keys]
  · refine ⟨(c.call "a2a.getBalance" (some (Json.obj [])) balanceResp).request,
      ((c.call "a2a.getBalance" (some (Json.obj [])) balanceResp).client.call
        "a2a.getPositions"
        (some (Json.obj [("userId", Json.str (c.call "a2a.getBalance" (some (Json.obj []))
            balanceResp).client.agent_id)])) positionsResp).request, ?_, rfl, rfl⟩
    simp [get_portfolio, hb, hp, Json.dictGet]

/-- Witness for claim C10 with an absent `balance` field (silent default
0) and an empty positions list. -/
theorem claim_C10_witness :
    (get_portfolio (BabylonA2AClient.init "http://x" "0xabc" 7 "pk") []
        ⟨200, Json.obj [("result", Json.obj [])]⟩
        ⟨200, Json.obj [("result", Json.arr [])]⟩).payload
      = Json.obj [("balance", Json.num 0), ("positions", Json.arr [])] ∧
    Json.keys (get_portfolio (BabylonA2AClient.init "http://x" "0xabc" 7 "pk") []
        ⟨200, Json.obj [("result", Json.obj [])]⟩
        ⟨200, Json.obj [("result", Json.arr [])]⟩).payload = ["balance", "positions"] ∧
    (∃ req1 req2, (get_portfolio (BabylonA2AClient.init "http://x" "0xabc" 7 "pk") []
        ⟨200, Json.obj [("result", Json.obj [])]⟩
        ⟨200, Json.obj [("result", Json.arr [])]⟩).requests = [req1, req2] ∧
      req2.method = "a2a.getPositions" ∧
      req2.params = Json.obj [("userId",
        Json.str (BabylonA2AClient.init "http://x" "0xabc" 7 "pk").agent_id)]) :=
  ⟨(claim_C10 (BabylonA2AClient.init "http://x" "0xabc" 7 "pk") []
      ⟨200, Json.obj [("result", Json.obj [])]⟩ ⟨200, Json.obj [("result", Json.arr [])]⟩
      [] (Json.arr []) rfl rfl).1,
   (claim_C10 (BabylonA2AClient.init "http://x" "0xabc" 7 "pk") []
      ⟨200, Json.obj [("result", Json.obj [])]⟩ ⟨200, Json.obj [("result", Json.arr [])]⟩
      [] (Json.arr []) rfl rfl).2.1,
   (claim_C10 (BabylonA2AClient.init "http://x" "0xabc" 7 "pk") []
      ⟨200, Json.obj [("result", Json.obj [])]⟩ ⟨200, Json.obj [("result", Json.arr [])]⟩
      [] (Json.arr []) rfl rfl).2.2⟩
end Babylon
